import Mathlib

/-!
Verification of the Inovio Tokenization reference server (`server.js`).

The development shallowly embeds the signing/verification core of the server:

* `hmacSha256Hex` models `crypto.createHmac('sha256', key).update(msg).digest('hex')`
  (FIPS 180-4 SHA-256 and RFC 2104 HMAC, executable over `Nat` byte lists);
* `generateTimestamp`, `generateSignature`, `verifyResponseSignature` mirror the
  functions of the same names in `server.js`;
* `handleTokenResponse` models the part of the `POST /api/generate-token` handler
  that runs after the remote response has been received and parsed
  (`server.js` lines 207-249); JSON parsing itself is abstracted: the parsed
  payload is an opaque value and its `TOKEN_REQID` field is passed explicitly;
* `jsTrim`, `jsToUpperCase`, `jsSubstringTo`, `strRepeat` model the JavaScript
  string primitives `trim`, `toUpperCase`, `substring(0, n)` and `repeat`
  (for the character ranges the server manipulates: ASCII and hex strings);
* `secretKeyStartupLogLine` models the masked secret-key line of the startup
  banner (`server.js` line 321).

Theorems `c1_*` .. `c10_*` settle the specification claims C1..C10.
-/

namespace Tokenization

/-! ## SHA-256 over byte lists (bytes are `Nat` values < 256) -/

/-- Truncation to a 32-bit word. -/
def w32 (n : Nat) : Nat := n % 4294967296

/-- 32-bit right rotation. -/
def rotr (n x : Nat) : Nat := w32 ((x >>> n) ||| (x <<< (32 - n)))

/-- The SHA-256 round constants. -/
def shaK : List Nat :=
  [1116352408, 1899447441, 3049323471, 3921009573, 961987163,
   1508970993, 2453635748, 2870763221, 3624381080, 310598401,
   607225278, 1426881987, 1925078388, 2162078206, 2614888103,
   3248222580, 3835390401, 4022224774, 264347078, 604807628,
   770255983, 1249150122, 1555081692, 1996064986, 2554220882,
   2821834349, 2952996808, 3210313671, 3336571891, 3584528711,
   113926993, 338241895, 666307205, 773529912, 1294757372,
   1396182291, 1695183700, 1986661051, 2177026350, 2456956037,
   2730485921, 2820302411, 3259730800, 3345764771, 3516065817,
   3600352804, 4094571909, 275423344, 430227734, 506948616,
   659060556, 883997877, 958139571, 1322822218, 1537002063,
   1747873779, 1955562222, 2024104815, 2227730452, 2361852424,
   2428436474, 2756734187, 3204031479, 3329325298]

/-- The SHA-256 initial hash state. -/
def shaH0 : List Nat :=
  [1779033703, 3144134277, 1013904242, 2773480762, 1359893119,
   2600822924, 528734635, 1541459225]

/-- Big-endian byte decomposition: the `k` low bytes of `n`, most significant first. -/
def toBytesBE (k n : Nat) : List Nat :=
  match k with
  | 0 => []
  | k + 1 => toBytesBE k (n / 256) ++ [n % 256]

/-- Splits a byte list into 64-byte blocks (fuel-based so that it reduces). -/
def splitBlocksAux : Nat → List Nat → List (List Nat)
  | 0, _ => []
  | _ + 1, [] => []
  | fuel + 1, a :: l => ((a :: l).take 64) :: splitBlocksAux fuel ((a :: l).drop 64)

/-- Splits a byte list into 64-byte blocks. -/
def splitBlocks (l : List Nat) : List (List Nat) := splitBlocksAux l.length l

/-- The 16 initial 32-bit message-schedule words of a 64-byte block. -/
def wordsOfBlock (blk : List Nat) : List Nat :=
  (List.range 16).map fun i =>
    blk.getD (4 * i) 0 * 16777216 + blk.getD (4 * i + 1) 0 * 65536 +
      blk.getD (4 * i + 2) 0 * 256 + blk.getD (4 * i + 3) 0

/-- SHA-256 small sigma 0. -/
def sig0 (x : Nat) : Nat := rotr 7 x ^^^ rotr 18 x ^^^ (x >>> 3)

/-- SHA-256 small sigma 1. -/
def sig1 (x : Nat) : Nat := rotr 17 x ^^^ rotr 19 x ^^^ (x >>> 10)

/-- Extends the 16 schedule words by `k` further words. -/
def extendSchedule (ws : List Nat) : Nat → List Nat
  | 0 => ws
  | k + 1 =>
    let n := ws.length
    let nw := w32 (sig1 (ws.getD (n - 2) 0) + ws.getD (n - 7) 0 +
      sig0 (ws.getD (n - 15) 0) + ws.getD (n - 16) 0)
    extendSchedule (ws ++ [nw]) k

/-- One SHA-256 compression round; the state is the 8 working variables a..h. -/
def compressStep (st : List Nat) (kw : Nat × Nat) : List Nat :=
  let a := st.getD 0 0
  let b := st.getD 1 0
  let c := st.getD 2 0
  let d := st.getD 3 0
  let e := st.getD 4 0
  let f := st.getD 5 0
  let g := st.getD 6 0
  let h := st.getD 7 0
  let s1 := rotr 6 e ^^^ rotr 11 e ^^^ rotr 25 e
  let ch := (e &&& f) ^^^ ((e ^^^ 4294967295) &&& g)
  let t1 := w32 (h + s1 + ch + kw.1 + kw.2)
  let s0 := rotr 2 a ^^^ rotr 13 a ^^^ rotr 22 a
  let maj := (a &&& b) ^^^ (a &&& c) ^^^ (b &&& c)
  let t2 := w32 (s0 + maj)
  [w32 (t1 + t2), a, b, c, w32 (d + t1), e, f, g]

/-- Compression of one 64-byte block into the running hash state. -/
def compressBlock (h8 : List Nat) (blk : List Nat) : List Nat :=
  let ws := extendSchedule (wordsOfBlock blk) 48
  let st := (shaK.zip ws).foldl compressStep h8
  (List.range 8).map fun i => w32 (h8.getD i 0 + st.getD i 0)

/-- SHA-256 padding: a 0x80 byte, zero fill to 56 mod 64, 8-byte big-endian bit length. -/
def padMessage (msg : List Nat) : List Nat :=
  let l := msg.length
  msg ++ 128 :: List.replicate ((64 + 55 - l % 64) % 64) 0 ++ toBytesBE 8 (8 * l)

/-- SHA-256 digest (32 bytes) of a byte list. -/
def sha256Bytes (msg : List Nat) : List Nat :=
  (((splitBlocks (padMessage msg)).foldl compressBlock shaH0).map (toBytesBE 4)).flatten

/-- RFC 2104 HMAC-SHA256 of a message under a key, both byte lists. -/
def hmacSha256Bytes (key msg : List Nat) : List Nat :=
  let k0 := if key.length > 64 then sha256Bytes key else key
  let kpad := k0 ++ List.replicate (64 - k0.length) 0
  sha256Bytes ((kpad.map fun b => b ^^^ 92) ++ sha256Bytes ((kpad.map fun b => b ^^^ 54) ++ msg))

/-- UTF-8 encoding of one character (how node encodes `update(message)` input). -/
def charUtf8 (c : Char) : List Nat :=
  let n := c.toNat
  if n < 128 then [n]
  else if n < 2048 then [192 + n / 64, 128 + n % 64]
  else if n < 65536 then [224 + n / 4096, 128 + n / 64 % 64, 128 + n % 64]
  else [240 + n / 262144, 128 + n / 4096 % 64, 128 + n / 64 % 64, 128 + n % 64]

/-- UTF-8 byte encoding of a string. -/
def utf8Bytes (s : String) : List Nat := (s.data.map charUtf8).flatten

/-- Lower-case hexadecimal digit for `n < 16`. -/
def hexDigitChar (n : Nat) : Char :=
  if n < 10 then Char.ofNat (48 + n) else Char.ofNat (87 + n)

/-- Two lower-case hex digits of a byte. -/
def hexByte (b : Nat) : List Char := [hexDigitChar (b / 16 % 16), hexDigitChar (b % 16)]

/-- Lower-case hexadecimal rendering of a byte list (node's `digest('hex')`). -/
def hexOfBytes (bs : List Nat) : String := String.mk ((bs.map hexByte).flatten)

/-- HMAC-SHA256 of a message string under a key string, rendered as lower-case hex;
the model of `crypto.createHmac('sha256', secretKey).update(message).digest('hex')`. -/
def hmacSha256Hex (secretKey message : String) : String :=
  hexOfBytes (hmacSha256Bytes (utf8Bytes secretKey) (utf8Bytes message))

/-! ## JavaScript string primitives used by the server -/

/-- Characters removed by JavaScript `String.prototype.trim` (whitespace and
line terminators). -/
def jsWhitespaceChar (c : Char) : Bool :=
  [9, 10, 11, 12, 13, 32, 160, 5760, 8192, 8193, 8194, 8195, 8196, 8197, 8198, 8199,
    8200, 8201, 8202, 8232, 8233, 8239, 8287, 12288, 65279].contains c.toNat

/-- JavaScript `s.trim()`: removes whitespace from BOTH ends of the string. -/
def jsTrim (s : String) : String :=
  String.mk (((s.data.dropWhile jsWhitespaceChar).reverse.dropWhile jsWhitespaceChar).reverse)

/-- Modelled from the spec: the preprocessing the specification prescribes for the
raw response body, stripping ONLY trailing whitespace/newline characters and
preserving leading content exactly.  Stated for comparison against the `jsTrim`
call the code actually performs. -/
def specTrimTrailing (s : String) : String :=
  String.mk ((s.data.reverse.dropWhile jsWhitespaceChar).reverse)

/-- JavaScript `s.toUpperCase()` on the basic latin range (the server only
upper-cases hexadecimal signature strings). -/
def jsToUpperCase (s : String) : String := String.mk (s.data.map Char.toUpper)

/-- JavaScript `s.substring(0, n)`. -/
def jsSubstringTo (s : String) (n : Nat) : String := String.mk (s.data.take n)

/-- JavaScript `c.repeat(n)` for a single character. -/
def strRepeat (c : Char) (n : Nat) : String := String.mk (List.replicate n c)

/-- Whether `sub` occurs at the head of `l`. -/
def listStartsWith : List Char → List Char → Bool
  | [], _ => true
  | _ :: _, [] => false
  | a :: s, b :: t => a == b && listStartsWith s t

/-- Whether `sub` occurs contiguously anywhere in `l` (first argument: the chunk). -/
def listContainsSub (sub : List Char) : List Char → Bool
  | [] => listStartsWith sub []
  | a :: l => listStartsWith sub (a :: l) || listContainsSub sub l

/-- Whether the string `sub` occurs contiguously inside `s`. -/
def strContains (s sub : String) : Bool := listContainsSub sub.data s.data

/-! ## The server's signing core (`server.js` lines 49-112) -/

/-- The UTC calendar fields of a clock instant, as JavaScript `Date` reports them:
`month0` is the 0-based month of `getUTCMonth()`. -/
structure UtcDateTime where
  year : Nat
  month0 : Nat
  day : Nat
  hour : Nat
  minute : Nat
  second : Nat

/-- JavaScript `String(x).padStart(2, '0')` applied to an already-stringified value. -/
def jsPadStart2Zero (s : String) : String :=
  if s.length < 2 then String.mk (List.replicate (2 - s.length) '0') ++ s else s

/-- A calendar component rendered as a zero-padded two-digit string
(`String(now.getUTC...()).padStart(2, '0')`). -/
def pad2 (n : Nat) : String := jsPadStart2Zero (Nat.repr n)

/-- `generateTimestamp` (`server.js` lines 49-59): the UTC fields of the instant
concatenated as `YYYYMMDDHHmmss`; the year is stringified without padding, the
other five components are zero-padded to two digits, and the month is the
0-based `getUTCMonth()` value plus one. -/
def generateTimestamp (d : UtcDateTime) : String :=
  Nat.repr d.year ++ pad2 (d.month0 + 1) ++ pad2 d.day ++ pad2 d.hour ++
    pad2 d.minute ++ pad2 d.second

/-- `generateSignature` (`server.js` lines 67-72): HMAC-SHA256 of the message under
the secret key, rendered as (lower-case) hexadecimal. -/
def generateSignature (secretKey message : String) : String :=
  hmacSha256Hex secretKey message

/-- The request-side message to sign (`server.js` line 161):
`` `${timestamp}${uniqueId}${siteId}` ``. -/
def requestMessageToSign (timestamp uniqueId siteId : String) : String :=
  timestamp ++ uniqueId ++ siteId

/-- The request signature (`server.js` line 162). -/
def requestSignature (secretKey timestamp uniqueId siteId : String) : String :=
  generateSignature secretKey (requestMessageToSign timestamp uniqueId siteId)

/-- `verifyResponseSignature` (`server.js` lines 95-112): rebuilds the message
`` `${serverTimestamp}${tokenRequestId}${rawResponseBody}` `` (the numeric
request id is stringified by the template literal), upper-cases the expected
and the received signature, and compares them.  The `rawResponseBody` argument
is the body as passed by the caller (already trimmed at the call site). -/
def verifyResponseSignature (secretKey receivedSignature serverTimestamp : String)
    (tokenRequestId : Nat) (rawResponseBody : String) : Bool :=
  let message := serverTimestamp ++ Nat.repr tokenRequestId ++ rawResponseBody
  let expectedSignature := jsToUpperCase (generateSignature secretKey message)
  expectedSignature == jsToUpperCase receivedSignature

/-! ## The `POST /api/generate-token` handler after the remote response
(`server.js` lines 207-249) -/

/-- JavaScript truthiness of a possibly-absent string (absent header or empty
string are falsy). -/
def jsTruthyStr : Option String → Bool
  | none => false
  | some s => !(s == "")

/-- JavaScript truthiness of a possibly-absent number (absent field or `0` are
falsy). -/
def jsTruthyNum : Option Nat → Bool
  | none => false
  | some n => !(n == 0)

/-- The JSON body returned on verification failure (`server.js` lines 225-237). -/
structure FailureBody (α : Type) where
  success : Bool
  error : String
  signatureVerified : Bool
  receivedSignature : String
  expectedSignature : String
  serverTimestamp : String
  tokenRequestId : Nat
  responseData : α

/-- The literal failure body the handler builds (`server.js` lines 225-237); the
expected signature is recomputed there from the trimmed raw body. -/
def verificationFailureBody (secretKey serverSignature serverTimestamp : String)
    (tokenRequestId : Nat) (rawResponseBody : String) (parsedData : α) : FailureBody α :=
  { success := false
    error := "Response signature verification failed"
    signatureVerified := false
    receivedSignature := serverSignature
    expectedSignature := jsToUpperCase (generateSignature secretKey
      (serverTimestamp ++ Nat.repr tokenRequestId ++ jsTrim rawResponseBody))
    serverTimestamp := serverTimestamp
    tokenRequestId := tokenRequestId
    responseData := parsedData }

/-- The HTTP outcome of the handler: either the verification-failure JSON or the
success JSON `\x7b success: true, signatureVerified: true, token \x7d`, each with
its HTTP status code. -/
inductive HandlerResult (α : Type) where
  | verifyFail (status : Nat) (body : FailureBody α)
  | ok (status : Nat) (success signatureVerified : Bool) (token : α)

/-- The tail of the `POST /api/generate-token` handler (`server.js` lines 207-249):
given the secret key, the optional `x-signature` and `x-timestamp` response
headers, the optional `TOKEN_REQID` of the parsed payload, the raw (latin1
decoded) response body and the parsed payload, it verifies the response
signature when all three guard values are truthy (trimming the body first) and
otherwise skips verification; the success JSON is returned on both the
verified and the skipped path. -/
def handleTokenResponse (secretKey : String) (serverSignature serverTimestamp : Option String)
    (tokenRequestId : Option Nat) (rawResponseBody : String) (parsedData : α) :
    HandlerResult α :=
  if jsTruthyStr serverSignature && jsTruthyStr serverTimestamp && jsTruthyNum tokenRequestId then
    let sig := serverSignature.getD ""
    let ts := serverTimestamp.getD ""
    let reqId := tokenRequestId.getD 0
    if verifyResponseSignature secretKey sig ts reqId (jsTrim rawResponseBody) then
      HandlerResult.ok 200 true true parsedData
    else
      HandlerResult.verifyFail 200
        (verificationFailureBody secretKey sig ts reqId rawResponseBody parsedData)
  else
    HandlerResult.ok 200 true true parsedData

/-- The fields of the failure body other than the expected signature
(the received signature is the server-supplied one); used to state that the
error payload depends on the secret key only through the expected signature. -/
def failureNonSignatureFields (b : FailureBody α) : Bool × String × Bool × String × String × Nat × α :=
  (b.success, b.error, b.signatureVerified, b.receivedSignature, b.serverTimestamp,
    b.tokenRequestId, b.responseData)

/-- The secret-key line of the startup banner (`server.js` line 321):
`` `  Secret Key:    ${CONFIG.SECRET_KEY.substring(0, 3)}${'*'.repeat(Math.max(0, CONFIG.SECRET_KEY.length - 3))}` ``. -/
def secretKeyStartupLogLine (key : String) : String :=
  "  Secret Key:    " ++ jsSubstringTo key 3 ++ strRepeat '*' (key.length - 3)

/-- The sixteen lower-case hexadecimal digit characters. -/
def lowerHexDigits : List Char := "0123456789abcdef".data

/-- The sixteen upper-case hexadecimal digit characters. -/
def upperHexDigits : List Char := "0123456789ABCDEF".data

/-- Whether a character is a lower-case hexadecimal digit. -/
def isLowerHexChar (c : Char) : Bool := lowerHexDigits.contains c

/-- Whether a character is an upper-case hexadecimal digit. -/
def isUpperHexChar (c : Char) : Bool := upperHexDigits.contains c

/-! ## Helper lemmas: decimal rendering of bounded numbers -/

theorem toDigitsCore_end (fuel n : Nat) (ds : List Char) (hn : n < 10) (hf : 0 < fuel) :
    Nat.toDigitsCore 10 fuel n ds = Nat.digitChar (n % 10) :: ds := by
  cases fuel with
  | zero => omega
  | succ f =>
    simp only [Nat.toDigitsCore]
    rw [if_pos (Nat.div_eq_of_lt hn)]

theorem toDigitsCore_step (fuel n : Nat) (ds : List Char) (hn : 10 ≤ n) :
    Nat.toDigitsCore 10 (fuel + 1) n ds =
      Nat.toDigitsCore 10 fuel (n / 10) (Nat.digitChar (n % 10) :: ds) := by
  simp only [Nat.toDigitsCore]
  rw [if_neg]
  have : 1 ≤ n / 10 := (Nat.one_le_div_iff (by decide)).mpr hn
  omega

theorem repr_eq_of_le_nine (n : Nat) (h : n ≤ 9) :
    Nat.repr n = String.mk [Nat.digitChar (n % 10)] := by
  show (Nat.toDigitsCore 10 (n + 1) n []).asString = _
  rw [toDigitsCore_end _ _ _ (by omega) (by omega)]
  rfl

theorem repr_eq_two_digits (n : Nat) (h1 : 10 ≤ n) (h2 : n ≤ 99) :
    Nat.repr n = String.mk [Nat.digitChar (n / 10 % 10), Nat.digitChar (n % 10)] := by
  have hd : n / 10 < 10 := Nat.div_lt_of_lt_mul (by omega)
  show (Nat.toDigitsCore 10 (n + 1) n []).asString = _
  rw [toDigitsCore_step _ _ _ h1]
  rw [toDigitsCore_end _ _ _ hd (by omega)]
  rfl

theorem repr_eq_four_digits (y : Nat) (h1 : 1000 ≤ y) (h2 : y ≤ 9999) :
    Nat.repr y = String.mk [Nat.digitChar (y / 10 / 10 / 10 % 10), Nat.digitChar (y / 10 / 10 % 10),
      Nat.digitChar (y / 10 % 10), Nat.digitChar (y % 10)] := by
  obtain ⟨k, rfl⟩ : ∃ k, y = 1000 + k := ⟨y - 1000, by omega⟩
  show (Nat.toDigitsCore 10 (1000 + k + 1) (1000 + k) []).asString = _
  rw [toDigitsCore_step _ _ _ (by omega)]
  rw [show 1000 + k = (999 + k) + 1 by omega]
  rw [toDigitsCore_step _ _ _ (by
    have : 100 ≤ (1000 + k) / 10 := Nat.le_div_iff_mul_le (by decide) |>.mpr (by omega)
    omega)]
  rw [show 999 + k = (998 + k) + 1 by omega]
  rw [toDigitsCore_step _ _ _ (by
    have : 10 ≤ (1000 + k) / 10 / 10 := by
      rw [Nat.div_div_eq_div_mul]
      exact Nat.le_div_iff_mul_le (by decide) |>.mpr (by omega)
    omega)]
  rw [toDigitsCore_end _ _ _ (by
    have : (1000 + k) / 10 / 10 / 10 < 10 := by
      rw [Nat.div_div_eq_div_mul, Nat.div_div_eq_div_mul]
      exact Nat.div_lt_of_lt_mul (by omega)
    omega) (by omega)]
  rfl

theorem pad2_eq_two_digits (n : Nat) (h : n ≤ 99) :
    pad2 n = String.mk [Nat.digitChar (n / 10 % 10), Nat.digitChar (n % 10)] := by
  by_cases h9 : n ≤ 9
  · have hd : n / 10 = 0 := Nat.div_eq_of_lt (by omega)
    rw [pad2, repr_eq_of_le_nine n h9, hd]
    rfl
  · rw [pad2, repr_eq_two_digits n (by omega) h]
    rfl

theorem digitChar_mod_isDigit (x : Nat) : (Nat.digitChar (x % 10)).isDigit = true := by
  have h : x % 10 < 10 := Nat.mod_lt _ (by decide)
  have hall : ∀ m < 10, (Nat.digitChar m).isDigit = true := by decide
  exact hall _ h

/-! ## Helper lemmas: hexadecimal rendering -/

theorem hexDigitChar_lower (n : Nat) (h : n < 16) : isLowerHexChar (hexDigitChar n) = true := by
  have hall : ∀ m < 16, isLowerHexChar (hexDigitChar m) = true := by decide
  exact hall _ h

theorem hexByte_lower (b : Nat) : (hexByte b).all isLowerHexChar = true := by
  simp only [hexByte, List.all_cons, List.all_nil, Bool.and_true]
  rw [hexDigitChar_lower _ (Nat.mod_lt _ (by decide)),
    hexDigitChar_lower _ (Nat.mod_lt _ (by decide))]
  rfl

theorem hexOfBytes_lower (bs : List Nat) : (hexOfBytes bs).data.all isLowerHexChar = true := by
  induction bs with
  | nil => rfl
  | cons b l ih =>
    show ((hexByte b ++ (l.map hexByte).flatten).all isLowerHexChar) = true
    rw [List.all_append, hexByte_lower b]
    exact ih

theorem hmacSha256Hex_lowerHex (key msg : String) :
    (hmacSha256Hex key msg).data.all isLowerHexChar = true :=
  hexOfBytes_lower _

theorem toUpper_lowerHex (c : Char) (h : isLowerHexChar c = true) :
    isUpperHexChar (Char.toUpper c) = true := by
  have hall : ∀ x ∈ lowerHexDigits, isUpperHexChar (Char.toUpper x) = true := by decide
  refine hall c ?_
  simpa [isLowerHexChar, List.contains] using h

theorem jsToUpperCase_upperHex (s : String) (h : s.data.all isLowerHexChar = true) :
    (jsToUpperCase s).data.all isUpperHexChar = true := by
  show (s.data.map Char.toUpper).all isUpperHexChar = true
  rw [List.all_map]
  refine List.all_eq_true.mpr fun c hc => ?_
  exact toUpper_lowerHex c (List.all_eq_true.mp h c hc)

/-! ## Claim theorems -/

/-- C3: for every secret key, server timestamp, request id and trimmed raw body,
the verifier's expected signature is the keyed HMAC-SHA256 under that key of the
exact ordered concatenation `serverTimestamp ++ requestId-as-canonical-string ++
trimmedRawBody` — no delimiters, no merchant id — rendered as hexadecimal and
case-normalized to upper case: the verifier accepts exactly the received
signatures whose upper-casing matches that value, the underlying digest is a
hexadecimal string, and the normalized expected signature consists of upper-case
hex digits. -/
theorem c3_expected_response_signature (key recv ts body : String) (reqId : Nat) :
    verifyResponseSignature key recv ts reqId body =
      (jsToUpperCase (hmacSha256Hex key (ts ++ Nat.repr reqId ++ body)) == jsToUpperCase recv) ∧
    (hmacSha256Hex key (ts ++ Nat.repr reqId ++ body)).data.all isLowerHexChar = true ∧
    (jsToUpperCase (hmacSha256Hex key (ts ++ Nat.repr reqId ++ body))).data.all
      isUpperHexChar = true :=
  ⟨rfl, hmacSha256Hex_lowerHex _ _,
    jsToUpperCase_upperHex _ (hmacSha256Hex_lowerHex _ _)⟩

/-- C4: round-trip — a received signature built by signing
`timestamp ++ requestId ++ body` with the secret key verifies as valid when fed
back through the response verifier with the identical components. -/
theorem c4_round_trip (key ts body : String) (reqId : Nat) :
    verifyResponseSignature key (generateSignature key (ts ++ Nat.repr reqId ++ body))
      ts reqId body = true := by
  simp [verifyResponseSignature]

/-- C5: the request-side message to sign is the exact ordered concatenation
`timestamp ++ nonce ++ merchantId` with no delimiters, and the request signature
is the keyed HMAC-SHA256 of that message under the secret key, rendered as
lower-case hexadecimal. -/
theorem c5_request_signature (key ts nonce siteId : String) :
    requestMessageToSign ts nonce siteId = ts ++ nonce ++ siteId ∧
    requestSignature key ts nonce siteId = hmacSha256Hex key (ts ++ nonce ++ siteId) ∧
    (requestSignature key ts nonce siteId).data.all isLowerHexChar = true :=
  ⟨rfl, rfl, hmacSha256Hex_lowerHex _ _⟩

/-- C6: signature comparison is case-insensitive — the verifier's outcome is
invariant under changing the letter-case of the received signature (two received
strings with the same upper-casing yield the same outcome), and any received
string whose upper-casing equals the upper-cased correct signature of the
components verifies as valid. -/
theorem c6_case_insensitive (key ts body : String) (reqId : Nat) (r r' : String) :
    (jsToUpperCase r = jsToUpperCase r' →
      verifyResponseSignature key r ts reqId body =
        verifyResponseSignature key r' ts reqId body) ∧
    (jsToUpperCase r =
        jsToUpperCase (generateSignature key (ts ++ Nat.repr reqId ++ body)) →
      verifyResponseSignature key r ts reqId body = true) := by
  constructor
  · intro h
    simp only [verifyResponseSignature, h]
  · intro h
    simp [verifyResponseSignature, h]

/-- C6 witness: a concrete mixed-case invariance instance and a concrete
round-trip instance obtained from `c6_case_insensitive`. -/
theorem c6_case_insensitive_witness :
    (jsToUpperCase "aB" = jsToUpperCase "Ab" ∧
      verifyResponseSignature "Password123" "aB" "20251103170005" 7 "body" =
        verifyResponseSignature "Password123" "Ab" "20251103170005" 7 "body") ∧
    verifyResponseSignature "Password123"
      (generateSignature "Password123" ("20251103170005" ++ Nat.repr 7 ++ "body"))
      "20251103170005" 7 "body" = true :=
  ⟨⟨by decide, (c6_case_insensitive "Password123" "20251103170005" "body" 7 "aB" "Ab").1
      (by decide)⟩,
    (c6_case_insensitive "Password123" "20251103170005" "body" 7
      (generateSignature "Password123" ("20251103170005" ++ Nat.repr 7 ++ "body")) "").2 rfl⟩

/-- C10: the handler guard treats every falsy value of the signature header, the
timestamp header or the request id exactly as if the value were absent — a
request id of 0 or an empty-string header skips verification and produces the
same response as the missing-field case, namely the success JSON with
`signatureVerified` set to true. -/
theorem c10_falsy_guard {α : Type} (key sig ts body : String) (reqId : Nat) (d : α) :
    handleTokenResponse key (some sig) (some ts) (some 0) body d =
      handleTokenResponse key (some sig) (some ts) none body d ∧
    handleTokenResponse key (some "") (some ts) (some reqId) body d =
      handleTokenResponse key none (some ts) (some reqId) body d ∧
    handleTokenResponse key (some sig) (some "") (some reqId) body d =
      handleTokenResponse key (some sig) none (some reqId) body d ∧
    handleTokenResponse key (some sig) (some ts) (some 0) body d =
      HandlerResult.ok 200 true true d := by
  refine ⟨?_, rfl, ?_, ?_⟩ <;> simp [handleTokenResponse, jsTruthyStr, jsTruthyNum]

/-- C1: on a response missing the signature header, the timestamp header or the
request-id field, the handler skips verification but nevertheless reports the
token payload with `success: true` and `signatureVerified: true` — the code
does NOT report a distinct unauthenticated state, contradicting the claim;
evaluated here at concrete missing-header and missing-field inputs. -/
theorem c1_skip_reports_verified :
    handleTokenResponse "Password123" none (some "20251103170005") (some 29973496)
      "body" "payload" = HandlerResult.ok 200 true true "payload" ∧
    handleTokenResponse "Password123" (some "AB") none (some 29973496)
      "body" "payload" = HandlerResult.ok 200 true true "payload" ∧
    handleTokenResponse "Password123" (some "AB") (some "20251103170005") none
      "body" "payload" = HandlerResult.ok 200 true true "payload" :=
  ⟨rfl, rfl, rfl⟩

/-- C7 counterexample: at a clock instant with a three-digit UTC year (year 999,
which a JavaScript `Date` can report), the generated timestamp has 13
characters, not the claimed 14 — the year is stringified without padding. -/
theorem c7_counterexample :
    generateTimestamp ⟨999, 0, 1, 0, 0, 0⟩ = "9990101000000" ∧
    (generateTimestamp ⟨999, 0, 1, 0, 0, 0⟩).length = 13 := by
  constructor <;> decide

/-- C7 (amended): for every clock instant whose UTC year has four decimal digits
(1000..9999), the generated timestamp is the instant's UTC calendar fields
formatted as exactly 14 decimal digits `YYYYMMDDHHmmss` — the five two-digit
components zero-padded, no separators. -/
theorem c7_timestamp_format (d : UtcDateTime) (hy1 : 1000 ≤ d.year) (hy2 : d.year ≤ 9999)
    (hm : d.month0 ≤ 11) (hd : d.day ≤ 31) (hh : d.hour ≤ 23) (hmin : d.minute ≤ 59)
    (hs : d.second ≤ 59) :
    (generateTimestamp d).length = 14 ∧
    (generateTimestamp d).data.all Char.isDigit = true ∧
    generateTimestamp d = Nat.repr d.year ++ pad2 (d.month0 + 1) ++ pad2 d.day ++
      pad2 d.hour ++ pad2 d.minute ++ pad2 d.second := by
  have hyr := repr_eq_four_digits d.year hy1 hy2
  have hmo := pad2_eq_two_digits (d.month0 + 1) (by omega)
  have hda := pad2_eq_two_digits d.day (by omega)
  have hho := pad2_eq_two_digits d.hour (by omega)
  have hmi := pad2_eq_two_digits d.minute (by omega)
  have hse := pad2_eq_two_digits d.second (by omega)
  refine ⟨?_, ?_, rfl⟩
  · rw [generateTimestamp, hyr, hmo, hda, hho, hmi, hse]
    rfl
  · rw [generateTimestamp, hyr, hmo, hda, hho, hmi, hse]
    simp only [String.data_append, List.all_append]
    simp [List.all, digitChar_mod_isDigit]

/-- C7 witness: the amended statement evaluated at the UTC instant
2025-11-03 17:00:00. -/
theorem c7_timestamp_format_witness :
    ((1000 : Nat) ≤ 2025 ∧ (2025 : Nat) ≤ 9999 ∧ (10 : Nat) ≤ 11 ∧ (3 : Nat) ≤ 31 ∧
      (17 : Nat) ≤ 23 ∧ (0 : Nat) ≤ 59) ∧
    (generateTimestamp ⟨2025, 10, 3, 17, 0, 0⟩).length = 14 :=
  ⟨by decide,
    (c7_timestamp_format ⟨2025, 10, 3, 17, 0, 0⟩ (by decide) (by decide) (by decide)
      (by decide) (by decide) (by decide) (by decide)).1⟩

set_option maxRecDepth 4000 in
/-- C8: whenever the guard values are truthy and response-signature verification
fails, the handler returns HTTP 200 (it does not throw) with the structured body
`success: false`, the error message, `signatureVerified: false`, the received
signature, the upper-cased recomputed expected signature, the server timestamp,
the token request id and the parsed response data. -/
theorem c8_failure_response {α : Type} (d : α) (key sig ts body : String) (reqId : Nat)
    (hsig : (sig == "") = false) (hts : (ts == "") = false) (hreq : (reqId == 0) = false)
    (hfail : verifyResponseSignature key sig ts reqId (jsTrim body) = false) :
    handleTokenResponse key (some sig) (some ts) (some reqId) body d =
      HandlerResult.verifyFail 200
        { success := false
          error := "Response signature verification failed"
          signatureVerified := false
          receivedSignature := sig
          expectedSignature := jsToUpperCase (generateSignature key
            (ts ++ Nat.repr reqId ++ jsTrim body))
          serverTimestamp := ts
          tokenRequestId := reqId
          responseData := d } := by
  simp [handleTokenResponse, jsTruthyStr, jsTruthyNum, hsig, hts, hreq, hfail,
    verificationFailureBody]

set_option maxRecDepth 8000 in
set_option maxHeartbeats 2000000 in
/-- C8 witness: a concrete failing verification (wrong received signature "AA")
and the structured 200 failure body the handler returns for it. -/
theorem c8_failure_response_witness :
    verifyResponseSignature "Password123" "AA" "T" 1 (jsTrim "B") = false ∧
    handleTokenResponse "Password123" (some "AA") (some "T") (some 1) "B" "D" =
      HandlerResult.verifyFail 200
        { success := false
          error := "Response signature verification failed"
          signatureVerified := false
          receivedSignature := "AA"
          expectedSignature := jsToUpperCase (generateSignature "Password123"
            ("T" ++ Nat.repr 1 ++ jsTrim "B"))
          serverTimestamp := "T"
          tokenRequestId := 1
          responseData := "D" } := by
  have h : verifyResponseSignature "Password123" "AA" "T" 1 (jsTrim "B") = false := by decide
  exact ⟨h, c8_failure_response "D" "Password123" "AA" "T" "B" 1 rfl rfl rfl h⟩

set_option maxRecDepth 8000 in
set_option maxHeartbeats 4000000 in
/-- C2: the byte sequence the code verifies over is NOT always the wire payload
with only trailing whitespace removed: JavaScript `trim()` also strips leading
whitespace.  At the concrete body `" a\n"` the code trims to `"a"` while the
specification mandates `" a"`; a correct server signature computed over the
trailing-only-trimmed form is rejected by the code's preprocessing and accepted
by the specification's. -/
theorem c2_trim_code_eval :
    jsTrim " a\n" = "a" ∧
    specTrimTrailing " a\n" = " a" ∧
    verifyResponseSignature "Password123"
      (jsToUpperCase (generateSignature "Password123"
        ("T" ++ Nat.repr 1 ++ specTrimTrailing " a\n")))
      "T" 1 (jsTrim " a\n") = false ∧
    verifyResponseSignature "Password123"
      (jsToUpperCase (generateSignature "Password123"
        ("T" ++ Nat.repr 1 ++ specTrimTrailing " a\n")))
      "T" 1 (specTrimTrailing " a\n") = true := by
  exact ⟨by decide, by decide, by decide, by decide⟩

set_option maxRecDepth 4000 in
set_option maxHeartbeats 1000000 in
/-- C9 counterexample: the startup banner's secret-key line contains the first
three characters of the secret key — with the default key `Password123` the log
output contains the key fragment `Pas`, so secret-key material does appear in a
log output. -/
theorem c9_counterexample :
    jsSubstringTo "Password123" 3 = "Pas" ∧
    strContains (secretKeyStartupLogLine "Password123") "Pas" = true ∧
    secretKeyStartupLogLine "Password123" = "  Secret Key:    Pas********" := by
  exact ⟨by decide, by decide, by decide⟩

/-- C9 (amended): the startup log line depends on the secret key only through
its first three characters and its length (the remainder is masked), and the
verification-failure payload depends on the secret key only through the
recomputed expected signature — all other fields are identical for any two
keys. -/
theorem c9_key_dependence {α : Type} (key1 key2 sig ts body : String) (reqId : Nat) (d : α)
    (h1 : jsSubstringTo key1 3 = jsSubstringTo key2 3) (h2 : key1.length = key2.length) :
    secretKeyStartupLogLine key1 = secretKeyStartupLogLine key2 ∧
    failureNonSignatureFields (verificationFailureBody key1 sig ts reqId body d) =
      failureNonSignatureFields (verificationFailureBody key2 sig ts reqId body d) := by
  constructor
  · simp only [secretKeyStartupLogLine, h1, h2]
  · simp only [failureNonSignatureFields, verificationFailureBody]

/-- C9 witness: two distinct keys sharing prefix and length produce the same
startup log line. -/
theorem c9_key_dependence_witness :
    (jsSubstringTo "Password123" 3 = jsSubstringTo "PasABCDEFGH" 3 ∧
      "Password123".length = "PasABCDEFGH".length) ∧
    secretKeyStartupLogLine "Password123" = secretKeyStartupLogLine "PasABCDEFGH" := by
  have h1 : jsSubstringTo "Password123" 3 = jsSubstringTo "PasABCDEFGH" 3 := by decide
  have h2 : "Password123".length = "PasABCDEFGH".length := by decide
  exact ⟨⟨h1, h2⟩, (c9_key_dependence "Password123" "PasABCDEFGH" "" "" "" 0 "" h1 h2).1⟩

end Tokenization
